import Mathlib

/-!
Verification of the multi-agent messaging substrate.

Shallow embedding of the repository's core:
  * `agent.py`        — `Agent.send_message`, `Agent.receive_message`,
                        `Agent.handle_ping`, `Agent.handle_process_data`,
                        `Agent.process_data`;
  * `message_handler.py` — `MessageBus.broadcast`;
  * `llm_coordinator.py` — `LLMCoordinator.handle_complex_task` (the dispatch
                        loop over a decomposed subtask list).

Modelling conventions:
  * Python dict-shaped messages become the structure `PyMsg`; a key being
    present in the dict is modelled as the corresponding field being `some _`.
  * Python exceptions become the `PyError` type.  A call's effect is the
    triple (state after the call, messages actually handed to the bus before
    any exception, the exception that escapes the call, if any): in CPython
    the `self.context` mutations performed before a raise persist, so the
    post-state is meaningful even for a raising call.
  * `agent.py` logs through
    `log_with_agent_id(logger, self.agent_id, logger.WARNING | logger.INFO |
    logger.ERROR, ...)`.  `logger` is the `logging.Logger` instance returned
    by `setup_logger`, and `Logger` instances have no `WARNING`/`INFO`/`ERROR`
    attributes (those are module-level constants of `logging`), so evaluating
    the third argument raises `AttributeError` before `log_with_agent_id` is
    entered.  The embedding models every such call site as raising
    `PyError.attributeError`.  Consequences, all reflected below:
    `receive_message` raises on every delivery (before returning on invalid
    messages, after the context update but before handler dispatch on valid
    ones), so the handler-dispatch tail, both `except` blocks and
    `handle_unknown_task` are unreachable from `receive_message`; the
    self-ping branch of `handle_ping` raises instead of returning.
    `llm_coordinator.py` instead passes the correct module constants
    (`logging.INFO` etc.), and `message_handler.py` calls
    `logger.warning(...)`/`logger.info(...)` methods, so those log calls are
    harmless no-ops here.
  * The LLM decomposition is external to the core (an opaque collaborator in
    the spec), so `handle_complex_task` is parametrised by the subtask list
    it produces, and the coordinator's route table by a `decompose` function.
  * `MessageBus.broadcast` has no try/except around the per-recipient
    `receive_message` call, so an exception escaping a delivery aborts the
    remaining deliveries; the embedding returns the registry state, the trace
    of deliveries performed, and the escaping exception, if any.
-/

namespace MAS

/-- Python-like runtime value, used for message payloads. -/
inductive Value where
  | vNone  : Value
  | vBool  : Bool → Value
  | vInt   : Int → Value
  | vStr   : String → Value
  | vList  : List Value → Value
  | vTuple : List Value → Value
  | vDict  : List (String × Value) → Value

/-- Python exception classes relevant to the modelled code paths.
`attributeError` is the one raised by evaluating `logger.WARNING` /
`logger.INFO` / `logger.ERROR` on a `logging.Logger` instance in
`agent.py`. -/
inductive PyError where
  | runtimeError   : PyError
  | keyError       : PyError
  | indexError     : PyError
  | valueError     : PyError
  | typeError      : PyError
  | attributeError : PyError

/-- A message dict.  A field is `some _` exactly when the key is present in
the Python dict (`"sender" in message` etc.). -/
structure PyMsg where
  sender    : Option String
  recipient : Option String
  task      : Option String
  payload   : Option Value

/-- The mutable state of an `Agent` from `agent.py`: its id, bounded context,
capacity, and whether a message bus is attached (`message_bus` truthy). -/
structure AgentState where
  agent_id    : String
  context     : List PyMsg
  max_context : Nat
  hasBus      : Bool

/-- The message dict built at the top of `Agent.send_message`. -/
def mkMsg (sender recipient task : String) (payload : Value) : PyMsg :=
  { sender := some sender, recipient := some recipient,
    task := some task, payload := some payload }

/-- `Agent.send_message`: builds the message, raises `RuntimeError` when no
bus is attached, otherwise hands the message to `bus.deliver`.  The method
contains no logging, so no `AttributeError` arises here.  The result is the
list of messages handed to the bus together with the exception, if any. -/
def send_message (st : AgentState) (recipient task : String) (payload : Value) :
    List PyMsg × Option PyError :=
  let message := mkMsg st.agent_id recipient task payload
  if st.hasBus then ([message], none)
  else ([], some PyError.runtimeError)

/-- `Agent.handle_ping`: on a self-addressed ping the source attempts
`log_with_agent_id(logger, ..., logger.INFO, ...)`, which raises
`AttributeError` (no reply is sent); any other ping is answered with a
`pong` to the sender (that branch has no logging). -/
def handle_ping (st : AgentState) (sender : String) (_payload : Value) :
    List PyMsg × Option PyError :=
  if sender = st.agent_id then ([], some PyError.attributeError)
  else send_message st sender "pong" (Value.vDict [("status", Value.vStr "alive")])

/-- The `item_count` computed inside `Agent.process_data`:
`len(payload) if isinstance(payload, (list, tuple, dict)) else 0`. -/
def item_count : Value → Nat
  | Value.vList l  => l.length
  | Value.vTuple l => l.length
  | Value.vDict l  => l.length
  | _              => 0

/-- `Agent.process_data`: returns `{"summary": f"Processed {item_count} items"}`
(no logging). -/
def process_data (payload : Value) : Value :=
  Value.vDict
    [("summary", Value.vStr ("Processed " ++ toString (item_count payload) ++ " items"))]

/-- `Agent.handle_process_data`: replies to the sender with task
`data_processed` and payload `{"result": process_data(payload)}` (no
logging). -/
def handle_process_data (st : AgentState) (sender : String) (payload : Value) :
    List PyMsg × Option PyError :=
  send_message st sender "data_processed" (Value.vDict [("result", process_data payload)])

/-- A task handler: given the agent state, the sender and the payload, it
yields the messages it handed to the bus and the exception it raised, if
any.  (The modelled handlers mutate no agent state other than via sends.) -/
abbrev Handler := AgentState → String → Value → List PyMsg × Option PyError

/-- A task-routing table (`self.task_routes`, a dict keyed by task name). -/
abbrev Routes := String → Option Handler

/-- The routing table installed by `Agent._init_task_routes`. -/
def defaultRoutes : Routes := fun t =>
  if t = "ping" then some handle_ping
  else if t = "process_data" then some handle_process_data
  else none

/-- `Agent.receive_message`.  Source order: (1) validate the required fields —
on violation the warning log raises `AttributeError` (context untouched);
(2) validate the addressing — same raising log on mismatch; (3) evict the
oldest context entry when the context is full (`pop(0)`, which raises
`IndexError` on an empty list) and append the message; (4) the pre-dispatch
`log_with_agent_id(..., logger.INFO, ...)` raises `AttributeError`, so the
handler lookup, the handler invocation with its two `except` blocks, and
`handle_unknown_task` below it are unreachable — the routing table is never
consulted (hence the unused `_routes`).  Result: (state after the call,
messages handed to the bus — always none, escaping exception). -/
def receive_message (_routes : Routes) (st : AgentState) (m : PyMsg) :
    AgentState × List PyMsg × Option PyError :=
  if m.sender.isNone ∨ m.recipient.isNone ∨ m.task.isNone then
    (st, [], some PyError.attributeError)
  else if m.recipient ≠ some st.agent_id then
    (st, [], some PyError.attributeError)
  else if st.context.length ≥ st.max_context then
    match st.context with
    | [] => (st, [], some PyError.indexError)
    | _ :: tl => ({ st with context := tl ++ [m] }, [], some PyError.attributeError)
  else
    ({ st with context := st.context ++ [m] }, [], some PyError.attributeError)

/-- The agent state after `receive_message` has recorded a valid message in
the bounded context (evicting the oldest entry when full).  The mutation
completes before the raising pre-dispatch log. -/
def contextPush (st : AgentState) (m : PyMsg) : AgentState :=
  if st.context.length ≥ st.max_context then { st with context := st.context.tail ++ [m] }
  else { st with context := st.context ++ [m] }

/-- Sequential delivery of a list of messages to one agent (repeated
`receive_message` calls addressed to it), threading the post-state of each
call.  Each individual call raises `AttributeError` back to that delivery's
caller (see `receive_message`); the agent object and its mutated context
survive, so the next delivery proceeds from the mutated state. -/
def receiveAll (routes : Routes) (st : AgentState) : List PyMsg → AgentState
  | [] => st
  | m :: rest => receiveAll routes (receive_message routes st m).1 rest

/-- A message that passes both validation steps of `receive_message` for the
agent with id `aid`: all required fields present, addressed to `aid`. -/
abbrev validFor (aid : String) (m : PyMsg) : Prop :=
  m.sender.isSome = true ∧ m.task.isSome = true ∧ m.recipient = some aid

/-- One entry of `MessageBus.agents` (a dict keyed by agent id, iterated in
insertion order): the key, the agent's state, and its routing table. -/
structure BusEntry where
  id     : String
  st     : AgentState
  routes : Routes

/-- `MessageBus.broadcast`: for each registered agent in registry order whose
id differs from the message's sender, invoke its `receive_message` on a copy
of the message with `recipient` rewritten to that agent's id.  There is no
try/except around the call (message_handler.py:30-36), so an exception
escaping a delivery propagates out of `broadcast` and aborts the remaining
deliveries.  Returns (registry state, trace of deliveries performed as
`(recipient id, delivered copy)`, escaping exception if any). -/
def broadcast : List BusEntry → PyMsg → List BusEntry × List (String × PyMsg) × Option PyError
  | [], _ => ([], [], none)
  | e :: rest, m =>
      if some e.id ≠ m.sender then
        match receive_message e.routes e.st { m with recipient := some e.id } with
        | (st', _, some err) =>
            ({ e with st := st' } :: rest,
              [(e.id, { m with recipient := some e.id })], some err)
        | (st', _, none) =>
            match broadcast rest m with
            | (rest', trace, err) =>
                ({ e with st := st' } :: rest',
                  (e.id, { m with recipient := some e.id }) :: trace, err)
      else
        match broadcast rest m with
        | (rest', trace, err) => (e :: rest', trace, err)

/-- One element of the list produced by decomposition in
`LLMCoordinator.handle_complex_task`.  Fields are `some _` when the
corresponding dict key is present; `dependencies` and `priority` are read
with `.get` defaults, the other three with raising `[]`-lookups. -/
structure Subtask where
  agent        : Option String
  task         : Option String
  payload      : Option Value
  priority     : Option Int
  dependencies : Option (List Nat)

/-- The `for i, subtask in enumerate(subtasks)` loop of
`LLMCoordinator.handle_complex_task`: read the three required keys (a
missing one raises `KeyError`), gate on
`dependencies and not all(dep < len(executed_tasks) for dep in dependencies)`
(skip permanently when it holds), otherwise send the subtask and record its
index in `executed_tasks`.  The coordinator logs with the module constants
`logging.WARNING`/`logging.INFO`, so its log calls are harmless.  Returns
(messages sent, executed indices, escaping exception if any). -/
def complexLoop (st : AgentState) :
    List Subtask → Nat → List Nat → List PyMsg × List Nat × Option PyError
  | [], _, executed => ([], executed, none)
  | s :: rest, i, executed =>
      match s.agent, s.task, s.payload with
      | some agent_type, some tsk, some pl =>
          let dependencies := s.dependencies.getD []
          if ¬ dependencies.isEmpty ∧
              ¬ dependencies.all (fun dep => dep < executed.length) then
            complexLoop st rest (i + 1) executed
          else
            match send_message st agent_type tsk pl with
            | (sent, some e) => (sent, executed, some e)
            | (sent, none) =>
                match complexLoop st rest (i + 1) (executed ++ [i]) with
                | (restMsgs, executedOut, errOut) =>
                    (sent ++ restMsgs, executedOut, errOut)
      | _, _, _ => ([], executed, some PyError.keyError)

/-- `LLMCoordinator.handle_complex_task` after decomposition has produced
`subtasks`: run the dispatch loop, then send the `coordination_complete`
summary to the original sender.  An exception escaping the loop escapes the
method (no summary is sent). -/
def handle_complex_task (st : AgentState) (sender : String) (payload : Value)
    (subtasks : List Subtask) : List PyMsg × Option PyError :=
  match complexLoop st subtasks 0 [] with
  | (msgs, _, some e) => (msgs, some e)
  | (msgs, executed, none) =>
      match send_message st sender "coordination_complete"
          (Value.vDict [("subtasks", Value.vInt subtasks.length),
            ("executed", Value.vInt executed.length),
            ("original_request", payload)]) with
      | (cmsgs, cerr) => (msgs ++ cmsgs, cerr)

/-- The coordinator's routing table restricted to the route the claims
exercise: `coordinate_complex_task` (added by `LLMCoordinator.__init__`) on
top of the base `Agent` routes, with the opaque LLM decomposition passed in
as `decompose`. -/
def coordRoutes (decompose : Value → List Subtask) : Routes := fun t =>
  if t = "coordinate_complex_task" then
    some (fun st sender payload => handle_complex_task st sender payload (decompose payload))
  else defaultRoutes t

/-- Modelled from the spec: a Python value "supports a length/size notion (a
sequence or a mapping)" — strings, lists and tuples are sequences, dicts are
mappings; `len` is defined on all of them. -/
def specHasLen : Value → Bool
  | Value.vStr _   => true
  | Value.vList _  => true
  | Value.vTuple _ => true
  | Value.vDict _  => true
  | _              => false

/-- Modelled from the spec: the size `len` gives on a value that supports a
length notion (0 on the rest). -/
def specLen : Value → Nat
  | Value.vStr s   => s.length
  | Value.vList l  => l.length
  | Value.vTuple l => l.length
  | Value.vDict l  => l.length
  | _              => 0

/-- Modelled from the spec (amended form): the item count is the payload's
size when the payload is a sequence container or a mapping of the concrete
kinds the code tests for (`list`, `tuple`, `dict`), and 0 otherwise — in
particular 0 for strings, although a string supports a length notion. -/
def specAmendedCount (v : Value) : Nat :=
  match v with
  | Value.vList _  => specLen v
  | Value.vTuple _ => specLen v
  | Value.vDict _  => specLen v
  | _              => 0

/-- A subtask carrying all three keys the dispatch loop reads with raising
lookups. -/
abbrev wellFormedSubtask (s : Subtask) : Prop :=
  s.agent.isSome = true ∧ s.task.isSome = true ∧ s.payload.isSome = true

/-- Modelled from the spec: the messages the dependency-gated loop should
send, reading the gate as "dispatch the subtask if and only if every value
in its dependencies list is strictly below the count of subtasks dispatched
so far" (`c`), in list order, ignoring `priority`. -/
def specSends (aid : String) : List Subtask → Nat → List PyMsg
  | [], _ => []
  | s :: rest, c =>
      if (s.dependencies.getD []).all (fun dep => dep < c) then
        mkMsg aid (s.agent.getD "") (s.task.getD "") (s.payload.getD (Value.vDict [])) ::
          specSends aid rest (c + 1)
      else specSends aid rest c

/-- Modelled from the spec: the indices the dependency-gated loop should
dispatch (`i` is the index of the head subtask, `c` the count dispatched so
far). -/
def specDispatchIdx : List Subtask → Nat → Nat → List Nat
  | [], _, _ => []
  | s :: rest, i, c =>
      if (s.dependencies.getD []).all (fun dep => dep < c) then
        i :: specDispatchIdx rest (i + 1) (c + 1)
      else specDispatchIdx rest (i + 1) c

/-- Test fixture: a handler that always raises (`ValueError`). -/
def failingHandler : Handler := fun _ _ _ => ([], some PyError.valueError)

/-- Test fixture: the base routes extended with a task whose handler always
raises, as an agent subclass would extend `task_routes`. -/
def testRoutes : Routes := fun t =>
  if t = "boom" then some failingHandler else defaultRoutes t

theorem contextPush_agent_id (st : AgentState) (m : PyMsg) :
    (contextPush st m).agent_id = st.agent_id := by
  unfold contextPush; split <;> rfl

theorem contextPush_max_context (st : AgentState) (m : PyMsg) :
    (contextPush st m).max_context = st.max_context := by
  unfold contextPush; split <;> rfl

theorem contextPush_length_le (st : AgentState) (m : PyMsg)
    (hk : 1 ≤ st.max_context) (hlen : st.context.length ≤ st.max_context) :
    (contextPush st m).context.length ≤ st.max_context := by
  unfold contextPush
  split
  · rename_i hfull
    rcases hctx : st.context with _ | ⟨hd, tl⟩
    · rw [hctx] at hfull; simp at hfull; omega
    · simp [hctx]
      rw [hctx] at hlen; simp at hlen; omega
  · rename_i hfull
    simp
    omega

theorem receive_valid (routes : Routes) (st : AgentState) (m : PyMsg)
    (hs : m.sender.isSome) (ht : m.task.isSome)
    (hr : m.recipient = some st.agent_id)
    (hne : st.context.length ≥ st.max_context → st.context ≠ []) :
    receive_message routes st m =
      (contextPush st m, [], some PyError.attributeError) := by
  unfold receive_message contextPush
  rw [if_neg, if_neg]
  · by_cases hfull : st.context.length ≥ st.max_context
    · rw [if_pos hfull, if_pos hfull]
      match hctx : st.context with
      | [] => exact absurd hctx (hne hfull)
      | _ :: tl => rfl
    · rw [if_neg hfull, if_neg hfull]
  · rw [hr]; simp
  · rw [Option.isSome_iff_ne_none] at hs ht
    simp [Option.isNone_iff_eq_none, hs, ht, hr]

theorem receive_length_le (routes : Routes) (st : AgentState) (m : PyMsg)
    (hk : 1 ≤ st.max_context) (hlen : st.context.length ≤ st.max_context) :
    (receive_message routes st m).1.context.length ≤ st.max_context ∧
    (receive_message routes st m).1.agent_id = st.agent_id ∧
    (receive_message routes st m).1.max_context = st.max_context := by
  unfold receive_message
  split
  · exact ⟨hlen, rfl, rfl⟩
  · split
    · exact ⟨hlen, rfl, rfl⟩
    · split
      · rename_i hfull
        match hctx : st.context with
        | [] => rw [hctx] at hfull; simp at hfull; omega
        | hd :: tl =>
            refine ⟨?_, rfl, rfl⟩
            rw [hctx] at hlen
            simp at hlen ⊢
            omega
      · rename_i hfull
        refine ⟨?_, rfl, rfl⟩
        simp
        omega

theorem receiveAll_context (routes : Routes) (k : Nat) (hk : 1 ≤ k)
    (msgs : List PyMsg) :
    ∀ (st : AgentState), st.max_context = k →
      st.context.length ≤ k → (∀ m ∈ msgs, validFor st.agent_id m) →
      (receiveAll routes st msgs).context =
        (st.context ++ msgs).drop (st.context.length + msgs.length - k) ∧
      (receiveAll routes st msgs).agent_id = st.agent_id ∧
      (receiveAll routes st msgs).max_context = k := by
  induction msgs with
  | nil =>
      intro st hmax hlen _
      refine ⟨?_, rfl, hmax⟩
      simp only [receiveAll, List.append_nil, List.length_nil]
      rw [show st.context.length + 0 - k = 0 by omega, List.drop_zero]
  | cons m rest ih =>
      intro st hmax hlen hvalid
      obtain ⟨hs, ht, hr⟩ := hvalid m (List.mem_cons_self m rest)
      have hrec := receive_valid routes st m (by simp [hs]) (by simp [ht]) hr
        (fun hfull hnil => by rw [hnil] at hfull; simp at hfull; omega)
      have step : receiveAll routes st (m :: rest) =
          receiveAll routes (contextPush st m) rest := by
        simp only [receiveAll]
        rw [hrec]
      have hmax' : (contextPush st m).max_context = k := by
        rw [contextPush_max_context, hmax]
      have hlen' : (contextPush st m).context.length ≤ k := by
        rw [← hmax]
        exact contextPush_length_le st m (by omega) (by omega)
      have hvalid' : ∀ m' ∈ rest, validFor (contextPush st m).agent_id m' := by
        rw [contextPush_agent_id]
        exact fun m' hm' => hvalid m' (List.mem_cons_of_mem m hm')
      obtain ⟨hctx, hid, hmx⟩ := ih (contextPush st m) hmax' hlen' hvalid'
      rw [step]
      refine ⟨?_, by rw [hid, contextPush_agent_id], hmx⟩
      rw [hctx]
      by_cases hfull : st.context.length ≥ st.max_context
      · have hpush : (contextPush st m).context = st.context.tail ++ [m] := by
          unfold contextPush; rw [if_pos hfull]
        rcases hctx2 : st.context with _ | ⟨hd2, tl⟩
        · rw [hctx2] at hfull; simp at hfull; omega
        · rw [hpush, hctx2]
          simp only [List.tail_cons, List.length_append, List.length_cons,
            List.length_nil, List.cons_append]
          have hlk : tl.length + 1 = k := by
            rw [hctx2] at hlen hfull
            simp at hlen hfull
            omega
          rw [show (tl ++ [m]) ++ rest = tl ++ m :: rest by simp]
          rw [show tl.length + (0 + 1) + rest.length - k = rest.length by omega]
          rw [show tl.length + 1 + (rest.length + 1) - k = rest.length + 1 by omega]
          rw [List.drop_succ_cons]
      · have hpush : (contextPush st m).context = st.context ++ [m] := by
          unfold contextPush; rw [if_neg hfull]
        rw [hpush]
        simp only [List.length_append, List.length_cons, List.length_nil]
        rw [show (st.context ++ [m]) ++ rest = st.context ++ m :: rest by simp]
        congr 1
        omega

theorem complexLoop_spec (st : AgentState) (hbus : st.hasBus = true)
    (subtasks : List Subtask) :
    (∀ s ∈ subtasks, wellFormedSubtask s) →
    ∀ (i : Nat) (executed : List Nat),
      complexLoop st subtasks i executed =
        (specSends st.agent_id subtasks executed.length,
          executed ++ specDispatchIdx subtasks i executed.length, none) := by
  induction subtasks with
  | nil => intro _ i executed; simp [complexLoop, specSends, specDispatchIdx]
  | cons s rest ih =>
      intro hwf i executed
      obtain ⟨ha, htk, hp⟩ := hwf s (List.mem_cons_self s rest)
      have hrest : ∀ x ∈ rest, wellFormedSubtask x :=
        fun x hx => hwf x (List.mem_cons_of_mem s hx)
      rcases s with ⟨sa, stk, sp, spr, sd⟩
      rcases sa with _ | a
      · simp at ha
      rcases stk with _ | t
      · simp at htk
      rcases sp with _ | p
      · simp at hp
      by_cases hall : (sd.getD []).all (fun dep => dep < executed.length) = true
      · have hih := ih hrest (i + 1) (executed ++ [i])
        simp only [List.length_append, List.length_cons, List.length_nil] at hih
        simp only [complexLoop, specSends, specDispatchIdx, hall]
        simp [send_message, hbus, hall, hih, mkMsg]
      · have hne : ¬ (sd.getD []).isEmpty = true := by
          intro hemp
          rw [List.isEmpty_iff] at hemp
          rw [hemp] at hall
          simp at hall
        have hih := ih hrest (i + 1) executed
        simp only [complexLoop, specSends, specDispatchIdx]
        simp [hall, hne, hih]

theorem complexLoop_bad (st : AgentState) (hbus : st.hasBus = true) (bad : Subtask)
    (hbad : ¬ wellFormedSubtask bad) (post : List Subtask) (pre : List Subtask) :
    (∀ s ∈ pre, wellFormedSubtask s) →
    ∀ (i : Nat) (executed : List Nat),
      complexLoop st (pre ++ bad :: post) i executed =
        (specSends st.agent_id pre executed.length,
          executed ++ specDispatchIdx pre i executed.length, some PyError.keyError) := by
  induction pre with
  | nil =>
      intro _ i executed
      simp only [List.nil_append, specSends, specDispatchIdx, List.append_nil]
      rcases bad with ⟨ba, bt, bp, bpr, bd⟩
      rcases ba with _ | a
      · simp [complexLoop]
      rcases bt with _ | t
      · simp [complexLoop]
      rcases bp with _ | p
      · simp [complexLoop]
      · exact absurd ⟨rfl, rfl, rfl⟩ hbad
  | cons s rest ih =>
      intro hwf i executed
      obtain ⟨ha, htk, hp⟩ := hwf s (List.mem_cons_self s rest)
      have hrest : ∀ x ∈ rest, wellFormedSubtask x :=
        fun x hx => hwf x (List.mem_cons_of_mem s hx)
      rcases s with ⟨sa, stk, sp, spr, sd⟩
      rcases sa with _ | a
      · simp at ha
      rcases stk with _ | t
      · simp at htk
      rcases sp with _ | p
      · simp at hp
      by_cases hall : (sd.getD []).all (fun dep => dep < executed.length) = true
      · have hih := ih hrest (i + 1) (executed ++ [i])
        simp only [List.length_append, List.length_cons, List.length_nil] at hih
        simp only [List.cons_append, complexLoop, specSends, specDispatchIdx, hall]
        simp [send_message, hbus, hall, hih, mkMsg]
      · have hne : ¬ (sd.getD []).isEmpty = true := by
          intro hemp
          rw [List.isEmpty_iff] at hemp
          rw [hemp] at hall
          simp at hall
        have hih := ih hrest (i + 1) executed
        simp only [List.cons_append, complexLoop, specSends, specDispatchIdx]
        simp [hall, hne, hih]

/-- C1: on a well-formed decomposed subtask list, `handle_complex_task`
walks the list in order (ignoring `priority`), dispatches the subtask at
each index exactly when every value in its dependencies list is strictly
below the count of subtasks dispatched so far (a gated-out subtask is never
retried), and after the loop sends exactly one `coordination_complete`
message to the original sender reporting `subtasks` = total count and
`executed` = dispatched count.  `specSends`/`specDispatchIdx` are the
spec-side renderings of that gating rule. -/
theorem claim_C1 (st : AgentState) (sender : String) (payload : Value)
    (subtasks : List Subtask) (hbus : st.hasBus = true)
    (hwf : ∀ s ∈ subtasks, wellFormedSubtask s) :
    handle_complex_task st sender payload subtasks =
      (specSends st.agent_id subtasks 0 ++
        [mkMsg st.agent_id sender "coordination_complete"
          (Value.vDict [("subtasks", Value.vInt subtasks.length),
            ("executed", Value.vInt (specDispatchIdx subtasks 0 0).length),
            ("original_request", payload)])], none) := by
  have hloop := complexLoop_spec st hbus subtasks hwf 0 []
  simp only [List.length_nil, List.nil_append] at hloop
  unfold handle_complex_task
  rw [hloop]
  simp [send_message, hbus, mkMsg]

theorem claim_C1_witness :
    (({ agent_id := "coord", context := [], max_context := 100, hasBus := true } :
        AgentState).hasBus = true ∧
      (∀ s ∈ [Subtask.mk (some "a0") (some "t0") (some (Value.vDict [])) (some 1) (some []),
          Subtask.mk (some "a1") (some "t1") (some (Value.vDict [])) (some 1) (some [0]),
          Subtask.mk (some "a2") (some "t2") (some (Value.vDict [])) (some 1) (some [5])],
        wellFormedSubtask s)) ∧
    handle_complex_task
        { agent_id := "coord", context := [], max_context := 100, hasBus := true }
        "user" (Value.vDict [])
        [Subtask.mk (some "a0") (some "t0") (some (Value.vDict [])) (some 1) (some []),
          Subtask.mk (some "a1") (some "t1") (some (Value.vDict [])) (some 1) (some [0]),
          Subtask.mk (some "a2") (some "t2") (some (Value.vDict [])) (some 1) (some [5])] =
      (specSends "coord"
          [Subtask.mk (some "a0") (some "t0") (some (Value.vDict [])) (some 1) (some []),
            Subtask.mk (some "a1") (some "t1") (some (Value.vDict [])) (some 1) (some [0]),
            Subtask.mk (some "a2") (some "t2") (some (Value.vDict [])) (some 1) (some [5])] 0 ++
        [mkMsg "coord" "user" "coordination_complete"
          (Value.vDict [("subtasks", Value.vInt 3),
            ("executed", Value.vInt
              (specDispatchIdx
                [Subtask.mk (some "a0") (some "t0") (some (Value.vDict [])) (some 1) (some []),
                  Subtask.mk (some "a1") (some "t1") (some (Value.vDict [])) (some 1) (some [0]),
                  Subtask.mk (some "a2") (some "t2") (some (Value.vDict [])) (some 1) (some [5])]
                0 0).length),
            ("original_request", Value.vDict [])])], none) ∧
    specDispatchIdx
        [Subtask.mk (some "a0") (some "t0") (some (Value.vDict [])) (some 1) (some []),
          Subtask.mk (some "a1") (some "t1") (some (Value.vDict [])) (some 1) (some [0]),
          Subtask.mk (some "a2") (some "t2") (some (Value.vDict [])) (some 1) (some [5])]
        0 0 = [0, 1] ∧
    specSends "coord"
        [Subtask.mk (some "a0") (some "t0") (some (Value.vDict [])) (some 1) (some []),
          Subtask.mk (some "a1") (some "t1") (some (Value.vDict [])) (some 1) (some [0]),
          Subtask.mk (some "a2") (some "t2") (some (Value.vDict [])) (some 1) (some [5])] 0 =
      [mkMsg "coord" "a0" "t0" (Value.vDict []), mkMsg "coord" "a1" "t1" (Value.vDict [])] :=
  ⟨⟨rfl, by decide⟩,
    claim_C1 { agent_id := "coord", context := [], max_context := 100, hasBus := true }
      "user" (Value.vDict [])
      [Subtask.mk (some "a0") (some "t0") (some (Value.vDict [])) (some 1) (some []),
        Subtask.mk (some "a1") (some "t1") (some (Value.vDict [])) (some 1) (some [0]),
        Subtask.mk (some "a2") (some "t2") (some (Value.vDict [])) (some 1) (some [5])]
      rfl (by decide),
    rfl, rfl⟩

/-- C2: with capacity `k ≥ 1`, the context bound `len(context) ≤ k` holds
after every `receive_message` call, and a fresh agent through which `n > k`
valid addressed messages have been delivered retains exactly the last `k`
messages, in delivery order.  The context mutation completes before the
pre-dispatch log raises (see `receive_message`), so these state properties
are properties of the source; the `AttributeError` each delivery also raises
is a separate defect recorded in `receive_valid` and settled under the
error-handling claims. -/
theorem claim_C2 (routes : Routes) (k : Nat) (st : AgentState) (m : PyMsg)
    (aid : String) (b : Bool) (msgs : List PyMsg)
    (hk : 1 ≤ k) (hst : st.max_context = k) (hlen : st.context.length ≤ k)
    (hvalid : ∀ m' ∈ msgs, validFor aid m') (hn : k < msgs.length) :
    (receive_message routes st m).1.context.length ≤ k ∧
    (receiveAll routes
        { agent_id := aid, context := [], max_context := k, hasBus := b } msgs).context =
      msgs.drop (msgs.length - k) ∧
    (receiveAll routes
        { agent_id := aid, context := [], max_context := k, hasBus := b } msgs).context.length =
      k := by
  refine ⟨?_, ?_, ?_⟩
  · have h := (receive_length_le routes st m (by omega) (by omega)).1
    omega
  · obtain ⟨hctx, _, _⟩ := receiveAll_context routes k hk msgs
      { agent_id := aid, context := [], max_context := k, hasBus := b } rfl (by simp) hvalid
    rw [hctx]; simp
  · obtain ⟨hctx, _, _⟩ := receiveAll_context routes k hk msgs
      { agent_id := aid, context := [], max_context := k, hasBus := b } rfl (by simp) hvalid
    rw [hctx]; simp; omega

theorem claim_C2_witness :
    (1 ≤ 2 ∧
      ({ agent_id := "a", context := [], max_context := 2, hasBus := true } :
        AgentState).max_context = 2 ∧
      (∀ m' ∈ [mkMsg "b" "a" "nop" Value.vNone, mkMsg "b" "a" "nop" (Value.vInt 1),
          mkMsg "b" "a" "nop" (Value.vInt 2)], validFor "a" m') ∧
      2 < ([mkMsg "b" "a" "nop" Value.vNone, mkMsg "b" "a" "nop" (Value.vInt 1),
          mkMsg "b" "a" "nop" (Value.vInt 2)] : List PyMsg).length) ∧
    ((receive_message defaultRoutes
        { agent_id := "a", context := [], max_context := 2, hasBus := true }
        (mkMsg "b" "a" "nop" Value.vNone)).1.context.length ≤ 2 ∧
      (receiveAll defaultRoutes
          { agent_id := "a", context := [], max_context := 2, hasBus := true }
          [mkMsg "b" "a" "nop" Value.vNone, mkMsg "b" "a" "nop" (Value.vInt 1),
            mkMsg "b" "a" "nop" (Value.vInt 2)]).context =
        ([mkMsg "b" "a" "nop" Value.vNone, mkMsg "b" "a" "nop" (Value.vInt 1),
          mkMsg "b" "a" "nop" (Value.vInt 2)] : List PyMsg).drop
          (([mkMsg "b" "a" "nop" Value.vNone, mkMsg "b" "a" "nop" (Value.vInt 1),
            mkMsg "b" "a" "nop" (Value.vInt 2)] : List PyMsg).length - 2) ∧
      (receiveAll defaultRoutes
          { agent_id := "a", context := [], max_context := 2, hasBus := true }
          [mkMsg "b" "a" "nop" Value.vNone, mkMsg "b" "a" "nop" (Value.vInt 1),
            mkMsg "b" "a" "nop" (Value.vInt 2)]).context.length = 2) :=
  ⟨⟨by decide, rfl, by decide, by decide⟩,
    claim_C2 defaultRoutes 2
      { agent_id := "a", context := [], max_context := 2, hasBus := true }
      (mkMsg "b" "a" "nop" Value.vNone) "a" true
      [mkMsg "b" "a" "nop" Value.vNone, mkMsg "b" "a" "nop" (Value.vInt 1),
        mkMsg "b" "a" "nop" (Value.vInt 2)]
      (by decide) rfl (by decide) (by decide) (by decide)⟩

/-- C3 (code bug): the claim states handler exceptions are caught inside
`receive_message`, but in the source no handler is ever invoked through
`receive_message`: the pre-dispatch `logger.INFO` log raises
`AttributeError` first (and both `except` blocks would themselves raise via
`logger.ERROR`).  Evaluating the code at the failing input — a valid
message whose task routes to an always-raising handler — shows
`receive_message` raising `AttributeError` after recording the message,
with the registered handler never invoked (no send, no `ValueError`). -/
theorem claim_C3 :
    receive_message testRoutes
        { agent_id := "a", context := [], max_context := 2, hasBus := true }
        (mkMsg "b" "a" "boom" (Value.vDict [])) =
      ({ agent_id := "a", context := [mkMsg "b" "a" "boom" (Value.vDict [])],
          max_context := 2, hasBus := true }, [], some PyError.attributeError) ∧
    testRoutes "boom" = some failingHandler ∧
    failingHandler
        { agent_id := "a", context := [mkMsg "b" "a" "boom" (Value.vDict [])],
          max_context := 2, hasBus := true }
        "b" (Value.vDict []) = ([], some PyError.valueError) :=
  ⟨rfl, rfl, rfl⟩

/-- C4: with no message bus attached, every `send_message` call raises
`RuntimeError` to its caller and hands no message to any bus, for every
recipient, task and payload. -/
theorem claim_C4 (st : AgentState) (recipient task : String) (payload : Value)
    (hnb : st.hasBus = false) :
    send_message st recipient task payload = ([], some PyError.runtimeError) := by
  simp [send_message, hnb]

theorem claim_C4_witness :
    ({ agent_id := "a", context := [], max_context := 100, hasBus := false } :
        AgentState).hasBus = false ∧
    send_message { agent_id := "a", context := [], max_context := 100, hasBus := false }
        "b" "ping" (Value.vDict []) = ([], some PyError.runtimeError) :=
  ⟨rfl, claim_C4 _ "b" "ping" (Value.vDict []) rfl⟩

/-- C5 (code bug): the claim states a message missing a required field (or
mis-addressed) makes `receive_message` return without raising; in the
source the warning log on those paths raises `AttributeError` out of
`receive_message`.  Evaluating the code at the failing input — a message
missing `task` delivered to agent `a` — shows the context unchanged and no
handler invoked, as the claim says, but an `AttributeError` escaping
instead of a normal return. -/
theorem claim_C5 :
    receive_message defaultRoutes
        { agent_id := "a", context := [], max_context := 100, hasBus := true }
        { sender := some "b", recipient := some "a", task := none, payload := none } =
      ({ agent_id := "a", context := [], max_context := 100, hasBus := true },
        [], some PyError.attributeError) :=
  rfl

/-- C6 (code bug): the claim states `broadcast` delivers to every registered
non-sender agent exactly once; in the source, delivery to the first
non-sender recipient raises `AttributeError` inside that agent's
`receive_message` (at its logging calls), and `broadcast` has no try/except,
so the exception propagates and aborts the remaining deliveries.  With
registry `{A, B, C}` and a message whose sender is `A`, only `B` is
delivered to (its context even records the copy) and `C` never receives. -/
theorem claim_C6 :
    (broadcast
        [BusEntry.mk "A"
            { agent_id := "A", context := [], max_context := 5, hasBus := true }
            defaultRoutes,
          BusEntry.mk "B"
            { agent_id := "B", context := [], max_context := 5, hasBus := true }
            defaultRoutes,
          BusEntry.mk "C"
            { agent_id := "C", context := [], max_context := 5, hasBus := true }
            defaultRoutes]
        (mkMsg "A" "B" "nop" Value.vNone)).2 =
      ([("B", { mkMsg "A" "B" "nop" Value.vNone with recipient := some "B" })],
        some PyError.attributeError) :=
  rfl

/-- C7: the built-in ping handler sends nothing when the sender is the agent
itself, and otherwise sends exactly one `pong` message to the sender with
payload `{status: "alive"}`.  On the self branch, no send occurs, as the
claim states; the equation also records that the branch's log call raises
`AttributeError` (the `logger.INFO` slip) instead of returning silently. -/
theorem claim_C7 (st : AgentState) (sender : String) (payload : Value)
    (hbus : st.hasBus = true) :
    (sender = st.agent_id →
      handle_ping st sender payload = ([], some PyError.attributeError)) ∧
    (sender ≠ st.agent_id →
      handle_ping st sender payload =
        ([mkMsg st.agent_id sender "pong" (Value.vDict [("status", Value.vStr "alive")])],
          none)) := by
  constructor
  · intro h; simp [handle_ping, h]
  · intro h; simp [handle_ping, h, send_message, hbus]

theorem claim_C7_witness :
    ({ agent_id := "a", context := [], max_context := 100, hasBus := true } :
        AgentState).hasBus = true ∧
    ((("b" : String) = "a" →
      handle_ping { agent_id := "a", context := [], max_context := 100, hasBus := true }
        "b" (Value.vDict []) = ([], some PyError.attributeError)) ∧
    (("b" : String) ≠ "a" →
      handle_ping { agent_id := "a", context := [], max_context := 100, hasBus := true }
        "b" (Value.vDict []) =
        ([mkMsg "a" "b" "pong" (Value.vDict [("status", Value.vStr "alive")])], none))) :=
  ⟨rfl, claim_C7 { agent_id := "a", context := [], max_context := 100, hasBus := true }
      "b" (Value.vDict []) rfl⟩

/-- C8 counterexample: the payload `"ab"` is a sequence supporting a length
notion of size 2, yet `process_data` reports 0 items, so the claimed count
(the payload's size whenever a length notion is supported) is wrong on it. -/
theorem claim_C8_counterexample :
    specHasLen (Value.vStr "ab") = true ∧
    specLen (Value.vStr "ab") = 2 ∧
    process_data (Value.vStr "ab") =
      Value.vDict [("summary", Value.vStr "Processed 0 items")] ∧
    item_count (Value.vStr "ab") ≠ specLen (Value.vStr "ab") :=
  ⟨rfl, rfl, rfl, by decide⟩

/-- C8 amended: `process_data` is total and its item count equals the
payload's size when the payload is a `list`, `tuple` or `dict`, and 0
otherwise (in particular 0 for strings, which do support a length notion);
the `process_data` task handler replies to the sender with task
`data_processed` and payload `{result: process_data(payload)}`. -/
theorem claim_C8 (st : AgentState) (sender : String) (payload : Value)
    (hbus : st.hasBus = true) :
    item_count payload = specAmendedCount payload ∧
    process_data payload =
      Value.vDict
        [("summary",
          Value.vStr ("Processed " ++ toString (specAmendedCount payload) ++ " items"))] ∧
    handle_process_data st sender payload =
      ([mkMsg st.agent_id sender "data_processed"
          (Value.vDict [("result", process_data payload)])], none) := by
  refine ⟨?_, ?_, ?_⟩
  · cases payload <;> rfl
  · have h : item_count payload = specAmendedCount payload := by cases payload <;> rfl
    rw [process_data, h]
  · simp [handle_process_data, send_message, hbus]

theorem claim_C8_witness :
    ({ agent_id := "a", context := [], max_context := 100, hasBus := true } :
        AgentState).hasBus = true ∧
    (item_count (Value.vList [Value.vInt 1, Value.vInt 2]) =
        specAmendedCount (Value.vList [Value.vInt 1, Value.vInt 2]) ∧
      process_data (Value.vList [Value.vInt 1, Value.vInt 2]) =
        Value.vDict
          [("summary",
            Value.vStr
              ("Processed " ++
                toString (specAmendedCount (Value.vList [Value.vInt 1, Value.vInt 2])) ++
                " items"))] ∧
      handle_process_data
          { agent_id := "a", context := [], max_context := 100, hasBus := true }
          "b" (Value.vList [Value.vInt 1, Value.vInt 2]) =
        ([mkMsg "a" "b" "data_processed"
            (Value.vDict
              [("result", process_data (Value.vList [Value.vInt 1, Value.vInt 2]))])],
          none)) :=
  ⟨rfl, claim_C8 { agent_id := "a", context := [], max_context := 100, hasBus := true }
      "b" (Value.vList [Value.vInt 1, Value.vInt 2]) rfl⟩

/-- C9 (code bug): the claim states that on a bus-less agent a valid ping
from another sender is handled with the in-handler `RuntimeError` swallowed
at the receive boundary.  In the source, `receive_message` raises
`AttributeError` at the post-append `logger.INFO` log before `handle_ping`
ever runs (the ping is still recorded in the context first); had the
handler been reached, its reply send would raise `RuntimeError`, the same
error a direct `send_message` call surfaces. -/
theorem claim_C9 :
    receive_message defaultRoutes
        { agent_id := "a", context := [], max_context := 3, hasBus := false }
        (mkMsg "b" "a" "ping" Value.vNone) =
      ({ agent_id := "a", context := [mkMsg "b" "a" "ping" Value.vNone],
          max_context := 3, hasBus := false }, [], some PyError.attributeError) ∧
    handle_ping { agent_id := "a", context := [], max_context := 3, hasBus := false }
        "b" Value.vNone = ([], some PyError.runtimeError) ∧
    send_message { agent_id := "a", context := [], max_context := 3, hasBus := false }
        "b" "pong" (Value.vDict [("status", Value.vStr "alive")]) =
      ([], some PyError.runtimeError) :=
  ⟨rfl, rfl, rfl⟩

/-- C10 (code bug): the claim's core is faithful to the source —
`handle_complex_task` on `[well-formed s0, s1 missing payload]` dispatches
`s0`, raises `KeyError` at `s1`, and sends no `coordination_complete` — but
its parenthetical (the error is swallowed at the receive boundary when the
handler runs via delivery) is not: delivering `coordinate_complex_task`
makes `receive_message` raise `AttributeError` at the pre-dispatch log, so
the coordinator's handler is never invoked through delivery and nothing is
swallowed. -/
theorem claim_C10 :
    handle_complex_task
        { agent_id := "coord", context := [], max_context := 100, hasBus := true }
        "user" (Value.vDict [])
        [Subtask.mk (some "a0") (some "t0") (some (Value.vDict [])) (some 1) (some []),
          Subtask.mk (some "a1") (some "t1") none (some 1) (some [])] =
      ([mkMsg "coord" "a0" "t0" (Value.vDict [])], some PyError.keyError) ∧
    receive_message
        (coordRoutes (fun _ : Value =>
          [Subtask.mk (some "a0") (some "t0") (some (Value.vDict [])) (some 1) (some []),
            Subtask.mk (some "a1") (some "t1") none (some 1) (some [])]))
        { agent_id := "coord", context := [], max_context := 100, hasBus := true }
        (mkMsg "user" "coord" "coordinate_complex_task" (Value.vDict [])) =
      ({ agent_id := "coord",
          context := [mkMsg "user" "coord" "coordinate_complex_task" (Value.vDict [])],
          max_context := 100, hasBus := true }, [], some PyError.attributeError) :=
  ⟨rfl, rfl⟩

end MAS
